import Mathlib

/-!
Verification of the chapter-generation workflow of the Rawi novel-writing
client.  The definitions below are a shallow embedding of the TypeScript
sources: `src/services/geminiService.ts` (generation client), the App
component bundled in the same file (workflow controller: `handleStart`,
`handleGenerateChapter`, `handleTwist`, `handleSelectChapter`) and
`src/components/NovelReader.tsx` (`handleExport`).  External provider
responses are modelled as explicit inputs (`ProviderTextResult`,
`OutlineCall`); JavaScript string truthiness is modelled by `strTruthy`.
-/

namespace Rawi

/-- Embedding of `NovelConfig` from `types.ts`.  The `Genre`/`Tone` enumerations are
string-valued in the source; they play no role in the workflow logic, so the
fields are plain strings here. -/
structure NovelConfig where
  title : String
  genre : String
  tone : String
  protagonist : String
  setting : String
  plotSummary : String
  targetAudience : String
deriving Repr, DecidableEq

/-- Embedding of `Chapter` from `types.ts`: `content?: string` is an `Option`, the
optional `isGenerating?: boolean` is a `Bool` (absent = `false`, matching the
falsiness of `undefined`). -/
structure Chapter where
  id : Nat
  title : String
  summary : String
  content : Option String := none
  isGenerating : Bool := false
deriving Repr, DecidableEq

/-- Embedding of `NovelData` from `types.ts`. -/
structure NovelData where
  config : NovelConfig
  outline : List Chapter
  currentChapterIndex : Nat
deriving Repr, DecidableEq

/-- Embedding of `AppState` from `types.ts`. -/
inductive AppState where
  | SETUP
  | GENERATING_OUTLINE
  | READING
deriving Repr, DecidableEq

/-- The React state of the App component: `appState`, `isLoading`, `error`,
`novelData`. -/
structure AppSession where
  appState : AppState
  isLoading : Bool
  error : Option String
  novelData : NovelData
deriving Repr, DecidableEq

/-- JavaScript truthiness of an optional string (`undefined` and `""` are
falsy, every non-empty string is truthy).  The guards `chapter.content ||
chapter.isGenerating`, the filter `c => c.content` and the checks
`!jsonText` in the source all use this. -/
def strTruthy : Option String → Bool
  | none => false
  | some s => s ≠ ""

/-- Evaluation of `x || d` for an optional string `x` and a (string) default `d`, as used
in `response.text || fallback`. -/
def textOr (t : Option String) (d : String) : String :=
  match t with
  | none => d
  | some s => if s = "" then d else s

/-- Outcome of one `ai.models.generateContent` call whose `text` field is
consumed: the promise either rejects (network/transport error) or resolves
with an optional `text`. -/
inductive ProviderTextResult where
  | rejected
  | resolved (text : Option String)
deriving Repr, DecidableEq

/-- The fallback string returned by `generateChapterContent` when the
provider resolves with empty/absent text. -/
def fallbackChapterContent : String := "عذراً، لم يتم إنشاء نص لهذا الفصل."

/-- Embedding of `generateChapterContent(config, chapter, previousChaptersSummary)` from
`geminiService.ts`: throws if the API key is missing or the provider call
rejects; otherwise returns `response.text || fallback`. -/
def generateChapterContent (hasApiKey : Bool) (_config : NovelConfig)
    (_chapter : Chapter) (_previousChaptersSummary : String)
    (r : ProviderTextResult) : Except String String :=
  if !hasApiKey then .error "API Key is missing"
  else
    match r with
    | .rejected => .error "transport error"
    | .resolved t => .ok (textOr t fallbackChapterContent)

/-- Embedding of `generatePlotTwist(config, chapter, previousChaptersSummary)` from
`geminiService.ts`: throws if the API key is missing or the provider call
rejects; otherwise returns `response.text || chapter.summary`. -/
def generatePlotTwist (hasApiKey : Bool) (_config : NovelConfig)
    (chapter : Chapter) (_previousChaptersSummary : String)
    (r : ProviderTextResult) : Except String String :=
  if !hasApiKey then .error "API Key is missing"
  else
    match r with
    | .rejected => .error "transport error"
    | .resolved t => .ok (textOr t chapter.summary)

/-- One `{title, summary}` element of the provider's outline JSON. -/
structure ChapterStub where
  title : String
  summary : String
deriving Repr, DecidableEq

/-- A resolved outline response: its raw `text` field, together with the
outcome of `JSON.parse(text).chapters` — `none` models the `catch` branch
(malformed JSON, or a payload on which `.chapters.map` throws), `some cs`
the successfully parsed chapter list. -/
structure OutlineProviderResponse where
  text : Option String
  parsedChapters : Option (List ChapterStub)
deriving Repr, DecidableEq

/-- Outcome of the outline `generateContent` call: rejected promise or a
resolved response. -/
inductive OutlineCall where
  | rejected
  | resolved (resp : OutlineProviderResponse)
deriving Repr, DecidableEq

/-- Embedding of `parsed.chapters.map((c, index) => ({id: index + 1, title: c.title,
summary: c.summary, content: undefined}))` from `generateNovelOutline`. -/
def stubsToChapters (cs : List ChapterStub) : List Chapter :=
  cs.enum.map fun p =>
    { id := p.1 + 1, title := p.2.title, summary := p.2.summary,
      content := none, isGenerating := false }

/-- Embedding of `generateNovelOutline(config)` from `geminiService.ts`: throws on a
missing API key, a rejected call, falsy `response.text` or a parse failure;
otherwise returns the stubs numbered `1..N`. -/
def generateNovelOutline (hasApiKey : Bool) (_config : NovelConfig)
    (call : OutlineCall) : Except String (List Chapter) :=
  if !hasApiKey then .error "API Key is missing"
  else
    match call with
    | .rejected => .error "transport error"
    | .resolved resp =>
        if !(strTruthy resp.text) then .error "No content generated"
        else
          match resp.parsedChapters with
          | none => .error "فشل في معالجة استجابة الذكاء الاصطناعي"
          | some cs => .ok (stubsToChapters cs)

/-- The user-visible error set by `handleStart`'s catch branch. -/
def outlineErrorMessage : String :=
  "حدث خطأ أثناء توليد مخطط الرواية. يرجى التأكد من المفتاح البرمجي أو المحاولة مرة أخرى."

/-- Embedding of `handleStart(config)` from the App component: on success replaces
`novelData` with the new config/outline, cursor `0`, and moves to
`READING`; on any thrown error sets the error message and leaves the app
state and novel data untouched.  (`setIsLoading`/`setError(null)` at entry
and `setIsLoading(false)` in `finally` are folded into the two outcomes.) -/
def handleStart (s : AppSession) (config : NovelConfig) (hasApiKey : Bool)
    (call : OutlineCall) : AppSession :=
  match generateNovelOutline hasApiKey config call with
  | .ok outline =>
      { s with
        novelData := { config := config, outline := outline, currentChapterIndex := 0 },
        appState := .READING, error := none, isLoading := false }
  | .error _ =>
      { s with error := some outlineErrorMessage, isLoading := false }

/-- Embedding of `newOutline[index] = {...newOutline[index], ...}`: replace element
`index` of the list by `f` of itself; out of range, the list is unchanged
(the source only reaches this with `index` in range, behind a guard). -/
def modifyAt (l : List Chapter) (i : Nat) (f : Chapter → Chapter) : List Chapter :=
  match l[i]? with
  | none => l
  | some c => l.set i (f c)

/-- One `setNovelData(prev => ...)` functional update patching a single
chapter. -/
def updateChapter (s : AppSession) (i : Nat) (f : Chapter → Chapter) : AppSession :=
  { s with novelData := { s.novelData with outline := modifyAt s.novelData.outline i f } }

/-- The line `فصل ${c.id}: ${c.summary}`, one line of the continuity context. -/
def chapterContextLine (c : Chapter) : String :=
  "فصل " ++ toString c.id ++ ": " ++ c.summary

/-- Embedding of `outline.slice(0, index).map(c => ...).join('\n')`: the continuity
context built from the chapters before `index`, exactly as both
`handleGenerateChapter` and `handleTwist` compute it. -/
def contextSummaryFor (outline : List Chapter) (index : Nat) : String :=
  String.intercalate "\n" ((outline.take index).map chapterContextLine)

/-- The `alert` message of `handleGenerateChapter`'s catch branch. -/
def chapterErrorAlert : String := "فشل في توليد الفصل. حاول مرة أخرى."

/-- The `alert` message of `handleTwist`'s catch branch. -/
def twistErrorAlert : String := "فشل في إضافة الحبكة. حاول مرة أخرى."

/-- Observable outcome of one `handleGenerateChapter(index)` invocation.
`typeError` is the synchronous `TypeError` thrown when the guard
dereferences `outline[index] === undefined` (no state was touched); `noop`
is the guarded early return (no state touched, no provider request);
`settled request mid fin alerted` records an issued request: `request` is
the continuity context supplied to the provider, `mid` the state right
after the synchronous optimistic update, `fin` the state once the promise
settles, and `alerted` the `alert` shown on failure (`none` on success). -/
inductive GenChapterOutcome where
  | typeError
  | noop
  | settled (request : String) (mid fin : AppSession) (alerted : Option String)
deriving Repr, DecidableEq

/-- Embedding of `handleGenerateChapter(index)` from the App component, as a function of
the session at invocation time and the provider outcome.  The guard reads
`novelData.outline[index]`; if the chapter has truthy content or is
generating it returns; otherwise it marks `isGenerating` synchronously,
builds the context from the captured outline, calls
`generateChapterContent`, and on resolution either stores the content and
clears the flag or (catch) clears the flag and alerts. -/
def handleGenerateChapter (s : AppSession) (index : Nat) (hasApiKey : Bool)
    (r : ProviderTextResult) : GenChapterOutcome :=
  match s.novelData.outline[index]? with
  | none => .typeError
  | some chapter =>
    if strTruthy chapter.content || chapter.isGenerating then .noop
    else
      let mid := updateChapter s index (fun c => { c with isGenerating := true })
      let ctx := contextSummaryFor s.novelData.outline index
      match generateChapterContent hasApiKey s.novelData.config chapter ctx r with
      | .ok content =>
          .settled ctx mid
            (updateChapter mid index
              (fun c => { c with content := some content, isGenerating := false }))
            none
      | .error _ =>
          .settled ctx mid
            (updateChapter mid index (fun c => { c with isGenerating := false }))
            (some chapterErrorAlert)

/-- Observable outcome of one `handleTwist(index)` invocation.  In
`settled request mid afterSummary fin alerted`, `request` is the continuity
context supplied to the provider, `mid` the state after the synchronous
`isGenerating` mark, `afterSummary` the state after the new summary is
applied (present only when the twist call resolved), `fin` the settled
state and `alerted` the failure `alert` (`none` on success). -/
inductive TwistOutcome where
  | typeError
  | noop
  | settled (request : String) (mid : AppSession) (afterSummary : Option AppSession)
      (fin : AppSession) (alerted : Option String)
deriving Repr, DecidableEq

/-- Embedding of `handleTwist(index)` from the App component: guard on
`chapter.isGenerating` only, synchronous mark, twist call, immediate summary
update, content call with the captured chapter carrying the new summary, and
the success/catch state updates, exactly as in the source. -/
def handleTwist (s : AppSession) (index : Nat) (hasApiKey : Bool)
    (rTwist rContent : ProviderTextResult) : TwistOutcome :=
  match s.novelData.outline[index]? with
  | none => .typeError
  | some chapter =>
    if chapter.isGenerating then .noop
    else
      let mid := updateChapter s index (fun c => { c with isGenerating := true })
      let ctx := contextSummaryFor s.novelData.outline index
      match generatePlotTwist hasApiKey s.novelData.config chapter ctx rTwist with
      | .error _ =>
          .settled ctx mid none
            (updateChapter mid index (fun c => { c with isGenerating := false }))
            (some twistErrorAlert)
      | .ok newSummary =>
          let afterSummary := updateChapter mid index (fun c => { c with summary := newSummary })
          match generateChapterContent hasApiKey s.novelData.config
              { chapter with summary := newSummary } ctx rContent with
          | .ok content =>
              .settled ctx mid (some afterSummary)
                (updateChapter afterSummary index
                  (fun c =>
                    { c with
                      summary := newSummary
                      content := some content
                      isGenerating := false }))
                none
          | .error _ =>
              .settled ctx mid (some afterSummary)
                (updateChapter afterSummary index (fun c => { c with isGenerating := false }))
                (some twistErrorAlert)

/-- Embedding of `handleSelectChapter(index)`: it sets the cursor, nothing else, with no
range validation. -/
def handleSelectChapter (s : AppSession) (index : Nat) : AppSession :=
  { s with novelData := { s.novelData with currentChapterIndex := index } }

/-- The session state an invocation leaves behind: `typeError` and `noop`
touch nothing, a settled invocation leaves `fin`. -/
def genChapterFinal (s : AppSession) : GenChapterOutcome → AppSession
  | .typeError => s
  | .noop => s
  | .settled _ _ fin _ => fin

/-- As `genChapterFinal`, for twist outcomes. -/
def twistFinal (s : AppSession) : TwistOutcome → AppSession
  | .typeError => s
  | .noop => s
  | .settled _ _ _ fin _ => fin

/-- The fixed delimiter `handleExport` joins chapter blocks with. -/
def exportDelimiter : String := "\n\n-------------------\n\n"

/-- The block `الفصل ${c.id}: ${c.title}\n\n${c.content}`, one exported chapter
block (only applied to chapters with truthy content). -/
def exportChapterBlock (c : Chapter) : String :=
  "الفصل " ++ toString c.id ++ ": " ++ c.title ++ "\n\n" ++ c.content.getD ""

/-- Embedding of `handleExport` from `NovelReader.tsx`: filter the chapters with truthy
content, format each, join with the fixed delimiter.  It reads the novel
data and returns a string; it takes no provider outcome and produces no new
session state. -/
def handleExport (d : NovelData) : String :=
  String.intercalate exportDelimiter
    ((d.outline.filter (fun c => strTruthy c.content)).map exportChapterBlock)

/-- The initial React state: `SETUP`, not loading, no error, empty config
(`{} as NovelConfig`), empty outline, cursor `0`. -/
def initialSession : AppSession :=
  { appState := .SETUP, isLoading := false, error := none,
    novelData :=
      { config :=
          { title := "", genre := "", tone := "", protagonist := "", setting := "",
            plotSummary := "", targetAudience := "" },
        outline := [], currentChapterIndex := 0 } }

/-- Setting the `isGenerating` flag of chapter `i` (the optimistic update
both handlers perform synchronously). -/
def markGenerating (s : AppSession) (i : Nat) : AppSession :=
  updateChapter s i (fun c => { c with isGenerating := true })

/-- Clearing the `isGenerating` flag of chapter `i` (the catch branches). -/
def clearGenerating (s : AppSession) (i : Nat) : AppSession :=
  updateChapter s i (fun c => { c with isGenerating := false })

/-- Storing generated content and clearing the flag (generate-chapter
success). -/
def storeContent (s : AppSession) (i : Nat) (content : String) : AppSession :=
  updateChapter s i (fun c => { c with content := some content, isGenerating := false })

/-- Applying a rewritten summary (the immediate update after the twist call
resolves). -/
def storeSummary (s : AppSession) (i : Nat) (summary : String) : AppSession :=
  updateChapter s i (fun c => { c with summary := summary })

/-- Storing the rewritten summary together with the regenerated content and
clearing the flag (twist success). -/
def storeTwist (s : AppSession) (i : Nat) (summary content : String) : AppSession :=
  updateChapter s i
    (fun c => { c with summary := summary, content := some content, isGenerating := false })

/-- The continuity context in the words of the specification: one
`فصل N: ملخص` line for every chapter whose 0-based position is strictly
less than `i`, in chapter order, joined by newlines. -/
def specContext (outline : List Chapter) (i : Nat) : String :=
  String.intercalate "\n"
    ((outline.enum.filter (fun p => p.1 < i)).map (fun p => chapterContextLine p.2))

/-- Success outcome of the outline step, in the specification's terms: the
session is `READING` with no error, the new config is installed, the cursor
is `0`, and position `j` of the outline holds exactly the `j`-th provider
stub with id `j + 1`, no content and a cleared generating flag (so ids are
contiguous and 1-based, and titles/summaries come from the provider
response). -/
def startSucceeded (config : NovelConfig) (cs : List ChapterStub) (s' : AppSession) : Prop :=
  s'.appState = AppState.READING ∧ s'.error = none
  ∧ s'.novelData.config = config ∧ s'.novelData.currentChapterIndex = 0
  ∧ ∀ j, s'.novelData.outline[j]?
      = (cs[j]?).map (fun st =>
          ({ id := j + 1, title := st.title, summary := st.summary,
             content := none, isGenerating := false } : Chapter))

/-- Failure outcome of the outline step: still `SETUP`, the error message
surfaced, and the novel data (hence: no chapters) unchanged. -/
def startFailed (s s' : AppSession) : Prop :=
  s'.appState = AppState.SETUP ∧ s'.error = some outlineErrorMessage
  ∧ s'.novelData = s.novelData

/-- The two-phase behaviour required of an unguarded generate-chapter
invocation on chapter `ch` at position `i`: the request is issued with the
chapter already marked generating in the synchronous intermediate state,
and the settled state is exactly one of success (non-empty content stored,
flag cleared, no alert) or failure (chapter unchanged apart from the
cleared flag — content still absent — and the error alert surfaced). -/
def GenChapterSpec (s : AppSession) (i : Nat) (k : Bool) (r : ProviderTextResult)
    (ch : Chapter) : Prop :=
  ∃ mid fin alerted,
    handleGenerateChapter s i k r
      = .settled (contextSummaryFor s.novelData.outline i) mid fin alerted
    ∧ mid.novelData.outline[i]? = some { ch with isGenerating := true }
    ∧ ((∃ content, content ≠ ""
          ∧ fin.novelData.outline[i]?
              = some { ch with content := some content, isGenerating := false }
          ∧ alerted = none)
        ∨ (fin.novelData.outline[i]? = some { ch with isGenerating := false }
          ∧ alerted = some chapterErrorAlert))

/-- What every settled (unguarded) twist invocation must leave behind: a
chapter whose generating flag is false and whose summary is either the
original one or a non-empty rewritten one. -/
def TwistSettleSpec (s : AppSession) (i : Nat) (k : Bool)
    (r₁ r₂ : ProviderTextResult) (ch : Chapter) : Prop :=
  ∃ q mid aft fin alerted,
    handleTwist s i k r₁ r₂ = .settled q mid aft fin alerted
    ∧ ∃ ch', fin.novelData.outline[i]? = some ch'
        ∧ ch'.isGenerating = false
        ∧ (ch'.summary = ch.summary ∨ ch'.summary ≠ "")

/-- The two failure modes of a twist on chapter `ch` at position `i`:
if the twist call itself rejects, the settled chapter keeps its summary and
content with the flag cleared and the error alert shown; if the twist call
resolves with a non-empty rewrite `t` and the subsequent content call
rejects, the rewritten summary `t` is already in the intermediate state and
is kept in the settled state, the content is untouched, the flag cleared
and the alert shown. -/
def TwistFailSpec (s : AppSession) (i : Nat) (ch : Chapter) : Prop :=
  (∀ r₂, ∃ mid fin,
      handleTwist s i true .rejected r₂
        = .settled (contextSummaryFor s.novelData.outline i) mid none fin
            (some twistErrorAlert)
      ∧ fin.novelData.outline[i]? = some { ch with isGenerating := false })
  ∧ (∀ t, t ≠ "" →
      ∃ mid aft fin,
        handleTwist s i true (.resolved (some t)) .rejected
          = .settled (contextSummaryFor s.novelData.outline i) mid (some aft) fin
              (some twistErrorAlert)
        ∧ aft.novelData.outline[i]? = some { ch with summary := t, isGenerating := true }
        ∧ fin.novelData.outline[i]? = some { ch with summary := t, isGenerating := false })

/-- The continuity-context property: whenever either handler issues a
request for position `i`, the request carries exactly the spec-level
context (the `فصل N: ملخص` lines of the positions `< i`, joined by
newlines). -/
def ContextSpec (s : AppSession) (i : Nat) (ch : Chapter) : Prop :=
  specContext s.novelData.outline i = contextSummaryFor s.novelData.outline i
  ∧ (strTruthy ch.content = false → ch.isGenerating = false →
      ∀ k r, ∃ mid fin alerted,
        handleGenerateChapter s i k r
          = .settled (specContext s.novelData.outline i) mid fin alerted)
  ∧ (ch.isGenerating = false →
      ∀ k r₁ r₂, ∃ mid aft fin alerted,
        handleTwist s i k r₁ r₂
          = .settled (specContext s.novelData.outline i) mid aft fin alerted)

/-- The export property: the produced text is the chapters with truthy
content, kept in outline order, formatted and joined by the fixed
delimiter; chapters without content contribute nothing; and (given the
outline's ids are strictly increasing, as the outline step guarantees) the
exported chapters appear in ascending id order. -/
def ExportSpec (d : NovelData) : Prop :=
  handleExport d
    = String.intercalate exportDelimiter
        ((d.outline.filter (fun c => strTruthy c.content)).map exportChapterBlock)
  ∧ (d.outline.filter (fun c => strTruthy c.content)).Pairwise (fun a b => a.id < b.id)
  ∧ ∀ c ∈ d.outline, strTruthy c.content = false →
      c ∉ d.outline.filter (fun c => strTruthy c.content)

/-! ### Concrete fixtures used by the example theorems -/

/-- A concrete premise. -/
def sampleConfig : NovelConfig :=
  { title := "رواية", genre := "خيال", tone := "جاد", protagonist := "بطلة",
    setting := "مدينة قديمة", plotSummary := "صراع", targetAudience := "عام" }

/-- A provider outline payload that parses to zero chapters. -/
def zeroChaptersJson : String := "\x7b\"chapters\": []\x7d"

/-- The two stubs of the sample outline. -/
def sampleStubs : List ChapterStub :=
  [⟨"البداية", "ملخص الفصل الأول"⟩, ⟨"النهاية", "ملخص الفصل الثاني"⟩]

/-- A session in `READING` state with a freshly generated two-chapter
outline. -/
def sampleSession : AppSession :=
  handleStart initialSession sampleConfig true (.resolved ⟨some "json", some sampleStubs⟩)

/-- The first chapter of `sampleSession`. -/
def sampleChapter0 : Chapter :=
  { id := 1, title := "البداية", summary := "ملخص الفصل الأول",
    content := none, isGenerating := false }

/-- The sample session with chapter 2 marked as generating. -/
def sampleBusySession : AppSession :=
  updateChapter sampleSession 1 (fun c => { c with isGenerating := true })

/-- The second chapter of `sampleBusySession`. -/
def sampleBusyChapter : Chapter :=
  { id := 2, title := "النهاية", summary := "ملخص الفصل الثاني",
    content := none, isGenerating := true }

/-- The session states reachable through the embedded operations, starting
from the initial React state.  `handleSelectChapter` appears with the
in-range indices the chapter list and the next-chapter button supply;
generate-chapter and twist invocations contribute every intermediate state
they make observable. -/
inductive Reachable : AppSession → Prop where
  | init : Reachable initialSession
  | start (s : AppSession) (config : NovelConfig) (hasApiKey : Bool) (call : OutlineCall) :
      Reachable s → Reachable (handleStart s config hasApiKey call)
  | genMid (s : AppSession) (i : Nat) (k : Bool) (r : ProviderTextResult)
      (q : String) (mid fin : AppSession) (a : Option String) :
      Reachable s → handleGenerateChapter s i k r = .settled q mid fin a →
      Reachable mid
  | genFin (s : AppSession) (i : Nat) (k : Bool) (r : ProviderTextResult)
      (q : String) (mid fin : AppSession) (a : Option String) :
      Reachable s → handleGenerateChapter s i k r = .settled q mid fin a →
      Reachable fin
  | twistMid (s : AppSession) (i : Nat) (k : Bool) (r₁ r₂ : ProviderTextResult)
      (q : String) (mid : AppSession) (aft : Option AppSession) (fin : AppSession)
      (a : Option String) :
      Reachable s → handleTwist s i k r₁ r₂ = .settled q mid aft fin a →
      Reachable mid
  | twistAft (s : AppSession) (i : Nat) (k : Bool) (r₁ r₂ : ProviderTextResult)
      (q : String) (mid aftS : AppSession) (fin : AppSession) (a : Option String) :
      Reachable s → handleTwist s i k r₁ r₂ = .settled q mid (some aftS) fin a →
      Reachable aftS
  | twistFin (s : AppSession) (i : Nat) (k : Bool) (r₁ r₂ : ProviderTextResult)
      (q : String) (mid : AppSession) (aft : Option AppSession) (fin : AppSession)
      (a : Option String) :
      Reachable s → handleTwist s i k r₁ r₂ = .settled q mid aft fin a →
      Reachable fin
  | select (s : AppSession) (i : Nat) :
      Reachable s → i < s.novelData.outline.length →
      Reachable (handleSelectChapter s i)


/-! ### Basic lemmas about the embedded operations -/

theorem textOr_of_falsy (t : Option String) (d : String) (h : strTruthy t = false) :
    textOr t d = d := by
  cases t with
  | none => rfl
  | some s =>
    have hs : s = "" := by simpa [strTruthy] using h
    simp [textOr, hs]

theorem textOr_eq_default_or_ne_empty (t : Option String) (d : String) :
    textOr t d = d ∨ textOr t d ≠ "" := by
  cases t with
  | none => exact .inl rfl
  | some s =>
    by_cases hs : s = ""
    · exact .inl (by simp [textOr, hs])
    · exact .inr (by simp [textOr, hs])

theorem textOr_ne_empty (t : Option String) (d : String) (hd : d ≠ "") :
    textOr t d ≠ "" := by
  cases t with
  | none => exact hd
  | some s =>
    by_cases hs : s = ""
    · simp [textOr, hs]
      exact hd
    · simp [textOr, hs]

theorem fallbackChapterContent_ne_empty : fallbackChapterContent ≠ "" := by decide

/-- The content stored by a successful `generateChapterContent` call is
never the empty string (it is either the provider text, non-empty by
truthiness, or the non-empty fallback). -/
theorem generateChapterContent_ok_ne_empty (k : Bool) (config : NovelConfig)
    (chapter : Chapter) (prior : String) (r : ProviderTextResult) (c : String)
    (h : generateChapterContent k config chapter prior r = .ok c) : c ≠ "" := by
  cases k with
  | false => simp [generateChapterContent] at h
  | true =>
    cases r with
    | rejected => simp [generateChapterContent] at h
    | resolved t =>
      have hc : c = textOr t fallbackChapterContent := by
        simpa [generateChapterContent] using h.symm
      rw [hc]
      exact textOr_ne_empty t _ fallbackChapterContent_ne_empty

/-- A successful `generatePlotTwist` call returns either the chapter's
original summary or a non-empty rewritten one. -/
theorem generatePlotTwist_ok_cases (k : Bool) (config : NovelConfig)
    (chapter : Chapter) (prior : String) (r : ProviderTextResult) (ns : String)
    (h : generatePlotTwist k config chapter prior r = .ok ns) :
    ns = chapter.summary ∨ ns ≠ "" := by
  cases k with
  | false => simp [generatePlotTwist] at h
  | true =>
    cases r with
    | rejected => simp [generatePlotTwist] at h
    | resolved t =>
      have hn : ns = textOr t chapter.summary := by
        simpa [generatePlotTwist] using h.symm
      rw [hn]
      exact textOr_eq_default_or_ne_empty t chapter.summary

theorem getElem?_modifyAt_self (l : List Chapter) (i : Nat) (f : Chapter → Chapter) :
    (modifyAt l i f)[i]? = (l[i]?).map f := by
  unfold modifyAt
  cases h : l[i]? with
  | none => simp [h]
  | some c =>
    obtain ⟨hi, -⟩ := List.getElem?_eq_some.mp h
    simp [List.getElem?_set_self hi]

theorem length_modifyAt (l : List Chapter) (i : Nat) (f : Chapter → Chapter) :
    (modifyAt l i f).length = l.length := by
  unfold modifyAt
  cases h : l[i]? <;> simp

theorem updateChapter_getElem_self (s : AppSession) (i : Nat) (f : Chapter → Chapter) :
    (updateChapter s i f).novelData.outline[i]? = (s.novelData.outline[i]?).map f :=
  getElem?_modifyAt_self _ _ _

theorem updateChapter_cursor (s : AppSession) (i : Nat) (f : Chapter → Chapter) :
    (updateChapter s i f).novelData.currentChapterIndex
      = s.novelData.currentChapterIndex := rfl

theorem updateChapter_length (s : AppSession) (i : Nat) (f : Chapter → Chapter) :
    (updateChapter s i f).novelData.outline.length = s.novelData.outline.length :=
  length_modifyAt _ _ _

/-- Pointwise description of the outline built by `generateNovelOutline`:
position `j` holds exactly the `j`-th provider stub, numbered `j + 1`, with
no content and a cleared flag. -/
theorem stubsToChapters_getElem (cs : List ChapterStub) (j : Nat) :
    (stubsToChapters cs)[j]?
      = (cs[j]?).map (fun st =>
          { id := j + 1, title := st.title, summary := st.summary,
            content := none, isGenerating := false }) := by
  unfold stubsToChapters
  rw [List.getElem?_map, List.getElem?_enum]
  cases h : cs[j]? <;> simp

/-! ### Characterization of the unguarded handler invocations -/

/-- An unguarded `handleGenerateChapter` invocation issues exactly one
request carrying the continuity context, transitions through
`markGenerating`, and settles either by storing the provider content or by
clearing the flag and alerting. -/
theorem handleGenerateChapter_unguarded (s : AppSession) (i : Nat) (k : Bool)
    (r : ProviderTextResult) (ch : Chapter)
    (hch : s.novelData.outline[i]? = some ch)
    (hc : strTruthy ch.content = false) (hg : ch.isGenerating = false) :
    (∃ content,
        generateChapterContent k s.novelData.config ch
            (contextSummaryFor s.novelData.outline i) r = .ok content
        ∧ handleGenerateChapter s i k r
            = .settled (contextSummaryFor s.novelData.outline i)
                (markGenerating s i) (storeContent (markGenerating s i) i content) none)
    ∨ (∃ e,
        generateChapterContent k s.novelData.config ch
            (contextSummaryFor s.novelData.outline i) r = .error e
        ∧ handleGenerateChapter s i k r
            = .settled (contextSummaryFor s.novelData.outline i)
                (markGenerating s i) (clearGenerating (markGenerating s i) i)
                (some chapterErrorAlert)) := by
  unfold handleGenerateChapter
  rw [hch]
  dsimp only
  simp only [hc, hg, Bool.or_self, Bool.false_eq_true, if_false]
  cases hgc : generateChapterContent k s.novelData.config ch
      (contextSummaryFor s.novelData.outline i) r with
  | ok content =>
    exact .inl ⟨content, rfl, rfl⟩
  | error e =>
    exact .inr ⟨e, rfl, rfl⟩

/-- An unguarded `handleTwist` invocation issues the twist request carrying
the continuity context and settles in one of three ways: twist call failed
(flag cleared on the marked state, alert), content call failed (flag
cleared on the state carrying the new summary, alert), or full success. -/
theorem handleTwist_unguarded (s : AppSession) (i : Nat) (k : Bool)
    (r₁ r₂ : ProviderTextResult) (ch : Chapter)
    (hch : s.novelData.outline[i]? = some ch)
    (hg : ch.isGenerating = false) :
    (∃ e,
        generatePlotTwist k s.novelData.config ch
            (contextSummaryFor s.novelData.outline i) r₁ = .error e
        ∧ handleTwist s i k r₁ r₂
            = .settled (contextSummaryFor s.novelData.outline i)
                (markGenerating s i) none (clearGenerating (markGenerating s i) i)
                (some twistErrorAlert))
    ∨ (∃ ns e,
        generatePlotTwist k s.novelData.config ch
            (contextSummaryFor s.novelData.outline i) r₁ = .ok ns
        ∧ generateChapterContent k s.novelData.config { ch with summary := ns }
            (contextSummaryFor s.novelData.outline i) r₂ = .error e
        ∧ handleTwist s i k r₁ r₂
            = .settled (contextSummaryFor s.novelData.outline i)
                (markGenerating s i) (some (storeSummary (markGenerating s i) i ns))
                (clearGenerating (storeSummary (markGenerating s i) i ns) i)
                (some twistErrorAlert))
    ∨ (∃ ns content,
        generatePlotTwist k s.novelData.config ch
            (contextSummaryFor s.novelData.outline i) r₁ = .ok ns
        ∧ generateChapterContent k s.novelData.config { ch with summary := ns }
            (contextSummaryFor s.novelData.outline i) r₂ = .ok content
        ∧ handleTwist s i k r₁ r₂
            = .settled (contextSummaryFor s.novelData.outline i)
                (markGenerating s i) (some (storeSummary (markGenerating s i) i ns))
                (storeTwist (storeSummary (markGenerating s i) i ns) i ns content)
                none) := by
  unfold handleTwist
  rw [hch]
  dsimp only
  simp only [hg, Bool.false_eq_true, if_false]
  cases hpt : generatePlotTwist k s.novelData.config ch
      (contextSummaryFor s.novelData.outline i) r₁ with
  | error e =>
    exact .inl ⟨e, rfl, rfl⟩
  | ok ns =>
    dsimp only
    cases hgc : generateChapterContent k s.novelData.config
        ⟨ch.id, ch.title, ns, ch.content, false⟩
        (contextSummaryFor s.novelData.outline i) r₂ with
    | ok content =>
      exact .inr (.inr ⟨ns, content, rfl, hgc, rfl⟩)
    | error e =>
      exact .inr (.inl ⟨ns, e, rfl, hgc, rfl⟩)

/-! ### The continuity context as the specification phrases it -/

theorem fst_ge_of_mem_enumFrom {α : Type _} :
    ∀ (l : List α) (n : Nat) (p : Nat × α), p ∈ l.enumFrom n → n ≤ p.1 := by
  intro l
  induction l with
  | nil => intro n p hp; cases hp
  | cons a l ih =>
    intro n p hp
    rw [List.enumFrom_cons, List.mem_cons] at hp
    rcases hp with rfl | hp
    · exact Nat.le_refl n
    · exact Nat.le_of_succ_le (ih (n + 1) p hp)

theorem filter_enumFrom_lt {α : Type _} (l : List α) : ∀ (n i : Nat),
    (l.enumFrom n).filter (fun p => p.1 < n + i) = (l.take i).enumFrom n := by
  induction l with
  | nil => intro n i; simp
  | cons a l ih =>
    intro n i
    cases i with
    | zero =>
      simp only [Nat.add_zero, List.take_zero, List.enumFrom_nil]
      rw [List.filter_eq_nil_iff]
      intro p hp
      have := fst_ge_of_mem_enumFrom (a :: l) n p hp
      simp only [decide_eq_true_eq]
      omega
    | succ j =>
      rw [List.enumFrom_cons, List.take_succ_cons, List.enumFrom_cons,
        List.filter_cons_of_pos (by simp)]
      have hnj : n + (j + 1) = (n + 1) + j := by omega
      simp only [hnj]
      rw [ih (n + 1) j]

/-- The spec-level continuity context coincides with the one the handlers
compute (`slice(0, i)` keeps exactly the positions `< i`). -/
theorem specContext_eq_contextSummaryFor (outline : List Chapter) (i : Nat) :
    specContext outline i = contextSummaryFor outline i := by
  unfold specContext contextSummaryFor
  show String.intercalate "\n"
      (((outline.enumFrom 0).filter (fun p => p.1 < i)).map (fun p => chapterContextLine p.2)) = _
  have h := filter_enumFrom_lt outline 0 i
  simp only [Nat.zero_add] at h
  rw [h]
  have hmap : ((outline.take i).enumFrom 0).map (fun p => chapterContextLine p.2)
      = ((outline.take i).enumFrom 0).map (chapterContextLine ∘ Prod.snd) := rfl
  rw [hmap, ← List.map_map, List.enumFrom_map_snd]

theorem specContext_zero (outline : List Chapter) : specContext outline 0 = "" := by
  rw [specContext_eq_contextSummaryFor]
  rfl

/-! ### Shape of the states the operations produce -/

/-- Lemma: `handleStart` either installs the freshly generated outline with cursor
`0` or leaves the novel data untouched and records the error message. -/
theorem handleStart_cases (s : AppSession) (config : NovelConfig) (k : Bool)
    (call : OutlineCall) :
    (∃ outline, generateNovelOutline k config call = .ok outline
        ∧ handleStart s config k call
          = { s with
              novelData := { config := config, outline := outline, currentChapterIndex := 0 },
              appState := .READING, error := none, isLoading := false })
    ∨ (∃ e, generateNovelOutline k config call = .error e
        ∧ handleStart s config k call
          = { s with error := some outlineErrorMessage, isLoading := false }) := by
  unfold handleStart
  cases h : generateNovelOutline k config call with
  | ok outline => exact .inl ⟨outline, rfl, rfl⟩
  | error e => exact .inr ⟨e, rfl, rfl⟩

/-- Every state reported by a settled `handleGenerateChapter` invocation
keeps the cursor and the outline length of the state it started from. -/
theorem handleGenerateChapter_settled_inv (s : AppSession) (i : Nat) (k : Bool)
    (r : ProviderTextResult) (q : String) (mid fin : AppSession) (a : Option String)
    (h : handleGenerateChapter s i k r = .settled q mid fin a) :
    mid.novelData.currentChapterIndex = s.novelData.currentChapterIndex
    ∧ mid.novelData.outline.length = s.novelData.outline.length
    ∧ fin.novelData.currentChapterIndex = s.novelData.currentChapterIndex
    ∧ fin.novelData.outline.length = s.novelData.outline.length := by
  unfold handleGenerateChapter at h
  split at h
  · exact absurd h (by simp)
  · split at h
    · exact absurd h (by simp)
    · dsimp only at h
      split at h <;>
        (injection h with h1 h2 h3 h4; subst h2; subst h3;
         exact ⟨updateChapter_cursor .., updateChapter_length ..,
           (updateChapter_cursor ..).trans (updateChapter_cursor ..),
           (updateChapter_length ..).trans (updateChapter_length ..)⟩)

/-- Every state reported by a settled `handleTwist` invocation keeps the
cursor and the outline length of the state it started from. -/
theorem handleTwist_settled_inv (s : AppSession) (i : Nat) (k : Bool)
    (r₁ r₂ : ProviderTextResult) (q : String) (mid : AppSession)
    (aft : Option AppSession) (fin : AppSession) (a : Option String)
    (h : handleTwist s i k r₁ r₂ = .settled q mid aft fin a) :
    mid.novelData.currentChapterIndex = s.novelData.currentChapterIndex
    ∧ mid.novelData.outline.length = s.novelData.outline.length
    ∧ fin.novelData.currentChapterIndex = s.novelData.currentChapterIndex
    ∧ fin.novelData.outline.length = s.novelData.outline.length
    ∧ ∀ aftS, aft = some aftS →
        aftS.novelData.currentChapterIndex = s.novelData.currentChapterIndex
        ∧ aftS.novelData.outline.length = s.novelData.outline.length := by
  unfold handleTwist at h
  split at h
  · exact absurd h (by simp)
  · split at h
    · exact absurd h (by simp)
    · dsimp only at h
      split at h
      · injection h with h1 h2 h3 h4 h5
        subst h2; subst h4
        refine ⟨updateChapter_cursor .., updateChapter_length ..,
          (updateChapter_cursor ..).trans (updateChapter_cursor ..),
          (updateChapter_length ..).trans (updateChapter_length ..), ?_⟩
        intro aftS haft
        rw [← h3] at haft
        exact absurd haft (by simp)
      · split at h <;>
          (injection h with h1 h2 h3 h4 h5; subst h2; subst h4;
           refine ⟨updateChapter_cursor .., updateChapter_length ..,
             ((updateChapter_cursor ..).trans (updateChapter_cursor ..)).trans
               (updateChapter_cursor ..),
             ((updateChapter_length ..).trans (updateChapter_length ..)).trans
               (updateChapter_length ..), ?_⟩;
           intro aftS haft;
           rw [← h3] at haft;
           injection haft with haft;
           subst haft;
           exact ⟨(updateChapter_cursor ..).trans (updateChapter_cursor ..),
             (updateChapter_length ..).trans (updateChapter_length ..)⟩)

/-! ### The claims -/

/-- Claim C10: for every position `i` at or beyond the outline's length, the
guards of `handleGenerateChapter` and `handleTwist` dereference an
undefined chapter (`outline[i]` is `undefined`, so reading `.content` or
`.isGenerating` throws a `TypeError`); the invocation throws synchronously
— neither a guarded no-op nor the user-visible error path — and no state
is touched and no flag is set (the `typeError` outcome carries no state
change and no alert). -/
theorem c10_out_of_range_throws (s : AppSession) (i : Nat)
    (h : s.novelData.outline.length ≤ i) :
    (∀ k r, handleGenerateChapter s i k r = .typeError)
    ∧ (∀ k r₁ r₂, handleTwist s i k r₁ r₂ = .typeError) := by
  have hnone : s.novelData.outline[i]? = none := List.getElem?_eq_none h
  constructor
  · intro k r
    unfold handleGenerateChapter
    rw [hnone]
  · intro k r₁ r₂
    unfold handleTwist
    rw [hnone]

/-- Witness for C10 at a concrete out-of-range index. -/
theorem c10_witness :
    sampleSession.novelData.outline.length ≤ 5
    ∧ handleGenerateChapter sampleSession 5 true (.resolved (some "x")) = .typeError
    ∧ handleTwist sampleSession 5 true .rejected .rejected = .typeError :=
  ⟨by decide,
   (c10_out_of_range_throws sampleSession 5 (by decide)).1 true (.resolved (some "x")),
   (c10_out_of_range_throws sampleSession 5 (by decide)).2 true .rejected .rejected⟩

/-- Claim C3: invoking generate-chapter on a chapter that already has
(truthy) content or is already generating, and invoking twist on a chapter
that is already generating, returns through the guard before any
`setNovelData` call and before any provider request: the outcome is `noop`
for every provider behaviour (so no request was needed to decide it), and
the session left behind is the original one — every chapter's summary,
content and flag, the premise, the cursor and the error value included. -/
theorem c3_guarded_noop (s : AppSession) (i : Nat) (ch : Chapter)
    (hch : s.novelData.outline[i]? = some ch) :
    (∀ k r, strTruthy ch.content = true ∨ ch.isGenerating = true →
        handleGenerateChapter s i k r = .noop
        ∧ genChapterFinal s (handleGenerateChapter s i k r) = s)
    ∧ (∀ k r₁ r₂, ch.isGenerating = true →
        handleTwist s i k r₁ r₂ = .noop
        ∧ twistFinal s (handleTwist s i k r₁ r₂) = s) := by
  constructor
  · intro k r h
    have hguard : (strTruthy ch.content || ch.isGenerating) = true := by
      rcases h with h | h <;> simp [h]
    have heq : handleGenerateChapter s i k r = .noop := by
      unfold handleGenerateChapter
      rw [hch]
      dsimp only
      rw [if_pos hguard]
    exact ⟨heq, by rw [heq]; rfl⟩
  · intro k r₁ r₂ h
    have heq : handleTwist s i k r₁ r₂ = .noop := by
      unfold handleTwist
      rw [hch]
      dsimp only
      rw [if_pos h]
    exact ⟨heq, by rw [heq]; rfl⟩

/-- Witness for C3 on a chapter that is generating. -/
theorem c3_witness :
    handleGenerateChapter sampleBusySession 1 true (.resolved (some "x")) = .noop
    ∧ handleTwist sampleBusySession 1 true .rejected (.resolved (some "y")) = .noop :=
  ⟨((c3_guarded_noop sampleBusySession 1 sampleBusyChapter (by decide)).1
      true (.resolved (some "x")) (.inr (by decide))).1,
   ((c3_guarded_noop sampleBusySession 1 sampleBusyChapter (by decide)).2
      true .rejected (.resolved (some "y")) (by decide)).1⟩

/-- Claim C6: when the provider call resolves but its `text` field is empty
or absent, `generateChapterContent` returns (does not throw) the fixed
boilerplate fallback string, and `generatePlotTwist` returns (does not
throw) the chapter's original summary unchanged. -/
theorem c6_soft_failure_fallbacks (config : NovelConfig) (chapter : Chapter)
    (prior : String) :
    (∀ t, strTruthy t = false →
        generateChapterContent true config chapter prior (.resolved t)
          = .ok fallbackChapterContent)
    ∧ (∀ t, strTruthy t = false →
        generatePlotTwist true config chapter prior (.resolved t)
          = .ok chapter.summary) := by
  constructor
  · intro t h
    show Except.ok (textOr t fallbackChapterContent) = Except.ok fallbackChapterContent
    rw [textOr_of_falsy t _ h]
  · intro t h
    show Except.ok (textOr t chapter.summary) = Except.ok chapter.summary
    rw [textOr_of_falsy t _ h]

/-- Witness for C6 at an empty and an absent text field. -/
theorem c6_witness :
    generateChapterContent true sampleConfig sampleChapter0 "" (.resolved (some ""))
      = .ok fallbackChapterContent
    ∧ generatePlotTwist true sampleConfig sampleChapter0 "" (.resolved none)
      = .ok sampleChapter0.summary :=
  ⟨(c6_soft_failure_fallbacks sampleConfig sampleChapter0 "").1 (some "") (by decide),
   (c6_soft_failure_fallbacks sampleConfig sampleChapter0 "").2 none (by decide)⟩

/-- Claim C2: on a chapter with no (truthy) content that is not generating,
generate-chapter marks `isGenerating := true` in the synchronous
intermediate state (observable before the provider result arrives), and
the settled state is exactly one of: non-empty content stored with the
flag cleared (success, no alert), or content still absent with the flag
cleared and the error alert surfaced (failure). -/
theorem c2_generate_chapter_two_phase (s : AppSession) (i : Nat) (k : Bool)
    (r : ProviderTextResult) (ch : Chapter)
    (hch : s.novelData.outline[i]? = some ch)
    (hc : strTruthy ch.content = false) (hg : ch.isGenerating = false) :
    GenChapterSpec s i k r ch := by
  unfold GenChapterSpec
  rcases handleGenerateChapter_unguarded s i k r ch hch hc hg with
    ⟨content, hok, heq⟩ | ⟨e, herr, heq⟩
  · refine ⟨_, _, _, heq, ?_, .inl ⟨content,
      generateChapterContent_ok_ne_empty _ _ _ _ _ _ hok, ?_, rfl⟩⟩
    · rw [markGenerating, updateChapter_getElem_self, hch]
      rfl
    · rw [storeContent, updateChapter_getElem_self, markGenerating,
        updateChapter_getElem_self, hch]
      rfl
  · refine ⟨_, _, _, heq, ?_, .inr ⟨?_, rfl⟩⟩
    · rw [markGenerating, updateChapter_getElem_self, hch]
      rfl
    · rw [clearGenerating, updateChapter_getElem_self, markGenerating,
        updateChapter_getElem_self, hch]
      rfl

/-- Witness for C2: generating chapter 1 of the sample session. -/
theorem c2_witness :
    GenChapterSpec sampleSession 0 true (.resolved (some "نص الفصل")) sampleChapter0 :=
  c2_generate_chapter_two_phase sampleSession 0 true (.resolved (some "نص الفصل"))
    sampleChapter0 (by decide) (by decide) (by decide)

/-- Claim C4: every twist invocation that passes the guard settles — in all
three outcomes (twist call failed, content call failed, success) — with
the chapter's generating flag false and its summary either unchanged or
replaced by a non-empty rewritten string. -/
theorem c4_twist_settles_clean (s : AppSession) (i : Nat) (k : Bool)
    (r₁ r₂ : ProviderTextResult) (ch : Chapter)
    (hch : s.novelData.outline[i]? = some ch) (hg : ch.isGenerating = false) :
    TwistSettleSpec s i k r₁ r₂ ch := by
  unfold TwistSettleSpec
  rcases handleTwist_unguarded s i k r₁ r₂ ch hch hg with
    ⟨e, herr, heq⟩ | ⟨ns, e, hok, herr, heq⟩ | ⟨ns, content, hok, hokc, heq⟩
  · refine ⟨_, _, _, _, _, heq, { ch with isGenerating := false }, ?_, rfl, .inl rfl⟩
    rw [clearGenerating, updateChapter_getElem_self, markGenerating,
      updateChapter_getElem_self, hch]
    rfl
  · refine ⟨_, _, _, _, _, heq, ⟨ch.id, ch.title, ns, ch.content, false⟩, ?_, rfl, ?_⟩
    · rw [clearGenerating, updateChapter_getElem_self, storeSummary,
        updateChapter_getElem_self, markGenerating, updateChapter_getElem_self, hch]
      rfl
    · exact generatePlotTwist_ok_cases _ _ _ _ _ _ hok
  · refine ⟨_, _, _, _, _, heq, ⟨ch.id, ch.title, ns, some content, false⟩, ?_, rfl, ?_⟩
    · rw [storeTwist, updateChapter_getElem_self, storeSummary,
        updateChapter_getElem_self, markGenerating, updateChapter_getElem_self, hch]
      rfl
    · exact generatePlotTwist_ok_cases _ _ _ _ _ _ hok

/-- Witness for C4: a twist whose first call rejects. -/
theorem c4_witness :
    TwistSettleSpec sampleSession 0 true .rejected (.resolved (some "x")) sampleChapter0 :=
  c4_twist_settles_clean sampleSession 0 true .rejected (.resolved (some "x"))
    sampleChapter0 (by decide) (by decide)

/-- Claim C5: when a twist fails, the flag is cleared and no content is
written, but a summary update that already landed is kept: a rejected
twist call leaves summary and content exactly as before with the alert
surfaced, while a rejected content call after a successful rewrite keeps
the new summary in state with the content untouched. -/
theorem c5_twist_failure_keeps_summary (s : AppSession) (i : Nat) (ch : Chapter)
    (hch : s.novelData.outline[i]? = some ch) (hg : ch.isGenerating = false) :
    TwistFailSpec s i ch := by
  unfold TwistFailSpec
  constructor
  · intro r₂
    rcases handleTwist_unguarded s i true .rejected r₂ ch hch hg with
      ⟨e, herr, heq⟩ | ⟨ns, e, hok, herr, heq⟩ | ⟨ns, content, hok, hokc, heq⟩
    · refine ⟨_, _, heq, ?_⟩
      rw [clearGenerating, updateChapter_getElem_self, markGenerating,
        updateChapter_getElem_self, hch]
      rfl
    · simp [generatePlotTwist] at hok
    · simp [generatePlotTwist] at hok
  · intro t ht
    rcases handleTwist_unguarded s i true (.resolved (some t)) .rejected ch hch hg with
      ⟨e, herr, heq⟩ | ⟨ns, e, hok, herr, heq⟩ | ⟨ns, content, hok, hokc, heq⟩
    · simp [generatePlotTwist] at herr
    · have hns : ns = t := by
        simp [generatePlotTwist, textOr, ht] at hok
        exact hok.symm
      subst hns
      refine ⟨_, _, _, heq, ?_, ?_⟩
      · rw [storeSummary, updateChapter_getElem_self, markGenerating,
          updateChapter_getElem_self, hch]
        rfl
      · rw [clearGenerating, updateChapter_getElem_self, storeSummary,
          updateChapter_getElem_self, markGenerating, updateChapter_getElem_self, hch]
        rfl
    · simp [generateChapterContent] at hokc

/-- Witness for C5: twisting chapter 2 of the sample session. -/
theorem c5_witness :
    TwistFailSpec sampleSession 1
      ⟨2, "النهاية", "ملخص الفصل الثاني", none, false⟩ :=
  c5_twist_failure_keeps_summary sampleSession 1
    ⟨2, "النهاية", "ملخص الفصل الثاني", none, false⟩ (by decide) (by decide)

/-- Claim C7: the continuity context supplied to the provider by both
generate-chapter(i) and twist(i) is exactly the newline-joined
`فصل N: ملخص` lines of the chapters at positions strictly less than `i`
(content or not), and for `i = 0` it is the empty string. -/
theorem c7_continuity_context (s : AppSession) (i : Nat) (ch : Chapter)
    (hch : s.novelData.outline[i]? = some ch) :
    ContextSpec s i ch ∧ specContext s.novelData.outline 0 = "" := by
  refine ⟨⟨specContext_eq_contextSummaryFor _ _, ?_, ?_⟩, specContext_zero _⟩
  · intro hc hg k r
    rw [specContext_eq_contextSummaryFor]
    rcases handleGenerateChapter_unguarded s i k r ch hch hc hg with
      ⟨c, _, heq⟩ | ⟨e, _, heq⟩
    · exact ⟨_, _, _, heq⟩
    · exact ⟨_, _, _, heq⟩
  · intro hg k r₁ r₂
    rw [specContext_eq_contextSummaryFor]
    rcases handleTwist_unguarded s i k r₁ r₂ ch hch hg with
      ⟨e, _, heq⟩ | ⟨ns, e, _, _, heq⟩ | ⟨ns, c, _, _, heq⟩
    · exact ⟨_, _, _, _, heq⟩
    · exact ⟨_, _, _, _, heq⟩
    · exact ⟨_, _, _, _, heq⟩

/-- Witness for C7 at position 1 of the sample session. -/
theorem c7_witness :
    ContextSpec sampleSession 1 ⟨2, "النهاية", "ملخص الفصل الثاني", none, false⟩
    ∧ specContext sampleSession.novelData.outline 0 = "" :=
  c7_continuity_context sampleSession 1
    ⟨2, "النهاية", "ملخص الفصل الثاني", none, false⟩ (by decide)

/-- Claim C9: export produces exactly the chapters with (truthy) content,
kept in outline order — ascending id order, since the outline step numbers
chapters increasingly — formatted and joined by the fixed delimiter;
chapters lacking content are omitted entirely.  `handleExport` is a pure
function of the novel data: it takes no provider outcome and returns no
session state, so it performs no generation call and modifies nothing. -/
theorem c9_export_format (d : NovelData)
    (hsorted : d.outline.Pairwise (fun a b => a.id < b.id)) :
    ExportSpec d := by
  refine ⟨rfl, List.Pairwise.filter _ hsorted, ?_⟩
  intro c hc hfalse hmem
  rw [List.mem_filter] at hmem
  have := hmem.2
  rw [hfalse] at this
  cases this

/-- Witness for C9 on a three-chapter outline whose middle chapter lacks
content. -/
theorem c9_witness :
    ExportSpec
      { config := sampleConfig,
        outline :=
          [⟨1, "أ", "س١", some "محتوى الأول", false⟩,
           ⟨2, "ب", "س٢", none, false⟩,
           ⟨3, "ج", "س٣", some "محتوى الثالث", false⟩],
        currentChapterIndex := 0 } :=
  c9_export_format _ (by decide)

/-- A successful outline call resolved with truthy text and a parsed
chapter list, and returned exactly the numbered stubs. -/
theorem generateNovelOutline_ok_inv (k : Bool) (config : NovelConfig)
    (call : OutlineCall) (outline : List Chapter)
    (h : generateNovelOutline k config call = .ok outline) :
    ∃ resp cs, call = .resolved resp ∧ resp.parsedChapters = some cs
      ∧ strTruthy resp.text = true ∧ outline = stubsToChapters cs := by
  cases k with
  | false => simp [generateNovelOutline] at h
  | true =>
    cases call with
    | rejected => simp [generateNovelOutline] at h
    | resolved resp =>
      by_cases ht : strTruthy resp.text
      · cases hp : resp.parsedChapters with
        | none => simp [generateNovelOutline, ht, hp] at h
        | some cs =>
          refine ⟨resp, cs, rfl, hp, ht, ?_⟩
          simp [generateNovelOutline, ht, hp] at h
          exact h.symm
      · simp [generateNovelOutline, ht] at h

/-- Claim C1 (amended): for every premise, the outline step either yields a
chapter sequence with contiguous 1-based ids, titles and summaries from
the provider response and empty content/generating flags, transitioning
the session to `READING`, or leaves the session in `SETUP` with a
surfaced error and no chapters created.  A rejected call, an absent/empty
response text or malformed JSON is a hard failure, but — contrary to the
claim as stated — a response that parses to zero chapters is a success:
it creates an empty outline and still transitions to `READING`. -/
theorem c1_outline_step (s : AppSession) (config : NovelConfig) (call : OutlineCall)
    (hsetup : s.appState = AppState.SETUP) :
    ((∃ cs, startSucceeded config cs (handleStart s config true call))
      ∨ startFailed s (handleStart s config true call))
    ∧ (call = .rejected → startFailed s (handleStart s config true call))
    ∧ (∀ resp, call = .resolved resp → strTruthy resp.text = false →
        startFailed s (handleStart s config true call))
    ∧ (∀ resp, call = .resolved resp → resp.parsedChapters = none →
        startFailed s (handleStart s config true call))
    ∧ (∀ resp, call = .resolved resp → strTruthy resp.text = true →
        resp.parsedChapters = some [] →
        startSucceeded config [] (handleStart s config true call)
        ∧ (handleStart s config true call).novelData.outline = []) := by
  rcases handleStart_cases s config true call with ⟨outline, hok, heq⟩ | ⟨e, herr, heq⟩
  · obtain ⟨resp, cs, hcall, hp, ht, houtline⟩ :=
      generateNovelOutline_ok_inv true config call outline hok
    subst hcall
    subst houtline
    have hsucc : startSucceeded config cs (handleStart s config true (.resolved resp)) := by
      rw [heq]
      exact ⟨rfl, rfl, rfl, rfl, fun j => stubsToChapters_getElem cs j⟩
    refine ⟨.inl ⟨cs, hsucc⟩, ?_, ?_, ?_, ?_⟩
    · intro hrej; cases hrej
    · intro resp' hcall' htext'
      injection hcall' with h'
      subst h'
      rw [htext'] at ht
      cases ht
    · intro resp' hcall' hp'
      injection hcall' with h'
      subst h'
      rw [hp'] at hp
      cases hp
    · intro resp' hcall' ht' hp'
      injection hcall' with h'
      subst h'
      rw [hp'] at hp
      injection hp with h''
      subst h''
      refine ⟨hsucc, ?_⟩
      rw [heq]
      rfl
  · have hfail : startFailed s (handleStart s config true call) := by
      rw [heq]
      exact ⟨hsetup, rfl, rfl⟩
    refine ⟨.inr hfail, fun _ => hfail, fun _ _ _ => hfail, fun _ _ _ => hfail, ?_⟩
    intro resp hcall ht hp
    subst hcall
    simp [generateNovelOutline, ht, hp] at herr

/-- Counterexample to C1 as stated: a provider payload that parses to zero
chapters is not a hard failure — the outline step succeeds, moving the
session to `READING` with no error and an empty (zero-chapter) outline. -/
theorem c1_counterexample :
    (handleStart initialSession sampleConfig true
        (.resolved ⟨some zeroChaptersJson, some []⟩)).appState = AppState.READING
    ∧ (handleStart initialSession sampleConfig true
        (.resolved ⟨some zeroChaptersJson, some []⟩)).error = none
    ∧ (handleStart initialSession sampleConfig true
        (.resolved ⟨some zeroChaptersJson, some []⟩)).novelData.outline = [] := by
  refine ⟨by decide, by decide, by decide⟩

/-- Witness for C1 on a rejected outline call. -/
theorem c1_witness :
    startFailed initialSession (handleStart initialSession sampleConfig true .rejected) :=
  (c1_outline_step initialSession sampleConfig .rejected rfl).2.1 rfl

/-- Two outlines of equal length are simultaneously empty or non-empty. -/
theorem ne_nil_of_length_eq {l₁ l₂ : List Chapter}
    (h : l₁.length = l₂.length) (hne : l₁ ≠ []) : l₂ ≠ [] := by
  intro hnil
  rw [hnil] at h
  simp only [List.length_nil] at h
  exact hne (List.length_eq_zero.mp h)

/-- Claim C8 (amended): provided `handleSelectChapter` is invoked only with
in-range indices — as the chapter list and next-chapter button do; the
handler itself performs no validation — every reachable session state
whose outline is non-empty has the cursor a valid index into it.  The
exemption is necessary: the initial session and any session built from a
zero-chapter provider response have cursor `0` over an empty outline. -/
theorem c8_cursor_invariant (s : AppSession) (h : Reachable s) :
    s.novelData.outline ≠ [] →
    s.novelData.currentChapterIndex < s.novelData.outline.length := by
  induction h with
  | init => intro hne; exact absurd rfl hne
  | start s config k call hs ih =>
    intro hne
    rcases handleStart_cases s config k call with ⟨outline, hok, heq⟩ | ⟨e, herr, heq⟩
    · rw [heq] at hne ⊢
      exact List.length_pos.mpr hne
    · rw [heq] at hne ⊢
      exact ih hne
  | genMid s i k r q mid fin a hs heq ih =>
    intro hne
    obtain ⟨hc, hl, _, _⟩ := handleGenerateChapter_settled_inv s i k r q mid fin a heq
    rw [hc, hl]
    exact ih (ne_nil_of_length_eq hl hne)
  | genFin s i k r q mid fin a hs heq ih =>
    intro hne
    obtain ⟨_, _, hc, hl⟩ := handleGenerateChapter_settled_inv s i k r q mid fin a heq
    rw [hc, hl]
    exact ih (ne_nil_of_length_eq hl hne)
  | twistMid s i k r₁ r₂ q mid aft fin a hs heq ih =>
    intro hne
    obtain ⟨hc, hl, _, _, _⟩ := handleTwist_settled_inv s i k r₁ r₂ q mid aft fin a heq
    rw [hc, hl]
    exact ih (ne_nil_of_length_eq hl hne)
  | twistAft s i k r₁ r₂ q mid aftS fin a hs heq ih =>
    intro hne
    obtain ⟨_, _, _, _, haft⟩ := handleTwist_settled_inv s i k r₁ r₂ q mid (some aftS) fin a heq
    obtain ⟨hc, hl⟩ := haft aftS rfl
    rw [hc, hl]
    exact ih (ne_nil_of_length_eq hl hne)
  | twistFin s i k r₁ r₂ q mid aft fin a hs heq ih =>
    intro hne
    obtain ⟨_, _, hc, hl, _⟩ := handleTwist_settled_inv s i k r₁ r₂ q mid aft fin a heq
    rw [hc, hl]
    exact ih (ne_nil_of_length_eq hl hne)
  | select s i hs hi ih =>
    intro hne
    exact hi

/-- Counterexample to C8 as stated: the zero-chapter outline success is a
reachable session state (one `handleStart` step from the initial state)
whose cursor `0` is not a valid index into its empty chapter sequence. -/
theorem c8_counterexample :
    Reachable (handleStart initialSession sampleConfig true
      (.resolved ⟨some zeroChaptersJson, some []⟩))
    ∧ ¬ ((handleStart initialSession sampleConfig true
          (.resolved ⟨some zeroChaptersJson, some []⟩)).novelData.currentChapterIndex
        < (handleStart initialSession sampleConfig true
            (.resolved ⟨some zeroChaptersJson, some []⟩)).novelData.outline.length) :=
  ⟨Reachable.start _ _ _ _ Reachable.init, by decide⟩

/-- Witness for C8 on the reachable two-chapter sample session. -/
theorem c8_witness :
    sampleSession.novelData.currentChapterIndex
      < sampleSession.novelData.outline.length :=
  c8_cursor_invariant sampleSession
    (Reachable.start _ _ _ _ Reachable.init) (by decide)

end Rawi
